import Mathlib

/-!
Verification of the wellfound-bot repository's natural-language specification
against a shallow embedding of its Python sources.

String-processing primitives of the Python standard library that the scripts
rely on (`in` substring tests, `str.split`, `str.zfill`, `str.lower`,
`str.strip`, regular-expression search over the small fixed pattern sets)
are embedded as executable functions over `List Char` / `String`, and each
script function under scrutiny is translated directly from its source file.
-/

/-! ### Python string primitives, embedded over `List Char` -/

/-- Decides whether `p` is a leading segment of `l` (character lists). -/
def charsLeadingOf : List Char → List Char → Bool
  | [], _ => true
  | _ :: _, [] => false
  | a :: as, b :: bs => a == b && charsLeadingOf as bs

/-- Decides whether `p` occurs contiguously inside `l`; Python's `p in s`
substring test.  The empty pattern occurs in every string, as in Python. -/
def charsInsideOf (p : List Char) : List Char → Bool
  | [] => p.isEmpty
  | c :: rest => charsLeadingOf p (c :: rest) || charsInsideOf p rest

/-- Python `pat in s` on strings. -/
def strContains (s pat : String) : Bool :=
  charsInsideOf pat.data s.data

/-- Python `s.startswith(pat)` on strings. -/
def strStartsWith (s pat : String) : Bool :=
  charsLeadingOf pat.data s.data

/-- Python `str.lower()` (ASCII case mapping, which is all the scripts feed it). -/
def strToLower (s : String) : String :=
  ⟨s.data.map Char.toLower⟩

/-- Whitespace characters stripped by Python's `str.strip()` (ASCII subset). -/
def isSpaceChar (c : Char) : Bool :=
  c == ' ' || c == '\t' || c == '\n' || c == '\r' || c == '\x0b' || c == '\x0c'

/-- Python `str.strip()` on a character list. -/
def trimChars (l : List Char) : List Char :=
  (((l.dropWhile isSpaceChar).reverse).dropWhile isSpaceChar).reverse

/-- Python `str.strip()`. -/
def strTrim (s : String) : String :=
  ⟨trimChars s.data⟩

/-- Python `s.split(sep)` for a one-character separator: splitting an empty
string yields `[""]`, consecutive separators yield empty fields. -/
def splitOnChar (sep : Char) : List Char → List (List Char)
  | [] => [[]]
  | c :: rest =>
    if c == sep then [] :: splitOnChar sep rest
    else
      match splitOnChar sep rest with
      | [] => [[c]]
      | h :: t => (c :: h) :: t

/-- Python `s.split("-")`. -/
def splitDashes (s : String) : List String :=
  (splitOnChar '-' s.data).map String.mk

/-- Python `s.replace(" ", "")`: removes every space character. -/
def removeSpaces (s : String) : String :=
  ⟨s.data.filter (fun c => !(c == ' '))⟩

/-- Python `s.replace("-", "")`: removes every dash. -/
def removeDashes (s : String) : String :=
  ⟨s.data.filter (fun c => !(c == '-'))⟩

/-- Python `s.zfill(w)`: left-pad with `'0'` to width `w`, keeping a leading
sign character in place. -/
def zfill (s : String) (w : Nat) : String :=
  if s.length ≥ w then s
  else
    match s.data with
    | [] => ⟨List.replicate w '0'⟩
    | c :: rest =>
      if c == '-' || c == '+' then
        ⟨c :: (List.replicate (w - s.length) '0' ++ rest)⟩
      else
        ⟨List.replicate (w - s.length) '0' ++ (c :: rest)⟩

/-- Regex word character, for the `\b` boundaries in the validator's
`\bSoB\b` / `\bEoC\b` patterns. -/
def isWordChar (c : Char) : Bool :=
  c.isAlphanum || c == '_'

/-- Match of the literal `pat` at the head of `l`, with a `\b` boundary
against the preceding character `prev` and after the matched text. -/
def wordMatchAt (pat l : List Char) (prev : Option Char) : Bool :=
  charsLeadingOf pat l &&
  (match prev with
   | none => true
   | some p => !isWordChar p) &&
  (match l.drop pat.length with
   | [] => true
   | c :: _ => !isWordChar c)

/-- Scan of `l` for a `\b pat \b` regex match, tracking the previous character. -/
def wordMatchFrom (pat : List Char) (prev : Option Char) : List Char → Bool
  | [] => wordMatchAt pat [] prev
  | c :: rest => wordMatchAt pat (c :: rest) prev || wordMatchFrom pat (some c) rest

/-- Python `re.search(r"\b<pat>\b", s)` for a literal `pat` made of word
characters. -/
def wordMatch (pat s : String) : Bool :=
  wordMatchFrom pat.data none s.data

/-! ### Correspondence between the Bool substring test and `List.IsInfix` -/

theorem charsLeadingOf_iff (p l : List Char) : charsLeadingOf p l = true ↔ p <+: l := by
  induction p generalizing l with
  | nil => simp [charsLeadingOf, List.nil_prefix]
  | cons a as ih =>
    cases l with
    | nil => simp [charsLeadingOf]
    | cons b bs =>
      simp [charsLeadingOf, List.cons_prefix_cons, ih, Bool.and_eq_true, beq_iff_eq]

theorem charsInsideOf_iff (p l : List Char) : charsInsideOf p l = true ↔ p <:+: l := by
  induction l with
  | nil =>
    simp [charsInsideOf, List.infix_nil, List.isEmpty_iff]
  | cons c rest ih =>
    simp [charsInsideOf, List.infix_cons_iff, charsLeadingOf_iff, ih, Bool.or_eq_true]

theorem charsInsideOf_of_sub {s p l : List Char} (hsp : charsInsideOf s p = true)
    (hpl : charsInsideOf p l = true) : charsInsideOf s l = true := by
  rw [charsInsideOf_iff] at *
  exact hsp.trans hpl

theorem charsInsideOf_false_of_sub {s p l : List Char} (hsp : charsInsideOf s p = true)
    (hsl : charsInsideOf s l = false) : charsInsideOf p l = false := by
  by_contra h
  have hpl : charsInsideOf p l = true := by
    cases hx : charsInsideOf p l with
    | true => rfl
    | false => exact absurd hx h
  have := charsInsideOf_of_sub hsp hpl
  rw [this] at hsl
  exact Bool.noConfusion hsl

/-! ### Humana direct grabber (`src/medicare/humana/humana_pdf_direct.py`) -/

namespace Humana

/-- Translation of `normalize_plan_id` from `humana_pdf_direct.py`: strip
spaces, split on `"-"`, require exactly 3 parts, left-pad the last segment
to 3 digits, and concatenate.  The Python `ValueError` raised on malformed
input is embedded as `Except.error` carrying the same message. -/
def normalize_plan_id (plan_id : String) : Except String String :=
  match splitDashes (removeSpaces plan_id) with
  | [pre, mid, suf] => Except.ok (pre ++ mid ++ zfill suf 3)
  | _ => Except.error ("Unexpected plan_id format: " ++ plan_id)

end Humana

theorem zfill_of_three_digits (s : String) (h : s.length = 3) : zfill s 3 = s := by
  unfold zfill
  rw [if_pos]
  omega

theorem humana_normalize_err (pid : String)
    (h : (splitDashes (removeSpaces pid)).length ≠ 3) :
    Humana.normalize_plan_id pid = Except.error ("Unexpected plan_id format: " ++ pid) := by
  rw [Humana.normalize_plan_id]
  cases hsp : splitDashes (removeSpaces pid) with
  | nil => rfl
  | cons a t =>
    cases t with
    | nil => rfl
    | cons b t2 =>
      cases t2 with
      | nil => rfl
      | cons c t3 =>
        cases t3 with
        | nil => exact absurd (by rw [hsp]; rfl) h
        | cons d t4 => rfl

/-- C1: the Humana direct grabber's plan-ID normalizer maps `"H5216-318-1"` to
`"H5216318001"`; when the segment already has 3 digits the segment portion is
emitted unchanged; and any input that does not split into exactly 3
hyphen-separated parts fails with the format error instead of mis-splitting. -/
theorem humana_plan_id_normalization
    (pid pre mid suf : String)
    (hsplit : splitDashes (removeSpaces pid) = [pre, mid, suf])
    (hlen : suf.length = 3)
    (pid2 : String)
    (hbad : (splitDashes (removeSpaces pid2)).length ≠ 3) :
    Humana.normalize_plan_id "H5216-318-1" = Except.ok "H5216318001" ∧
    Humana.normalize_plan_id pid = Except.ok (pre ++ mid ++ suf) ∧
    Humana.normalize_plan_id pid2 =
      Except.error ("Unexpected plan_id format: " ++ pid2) := by
  refine ⟨rfl, ?_, humana_normalize_err pid2 hbad⟩
  rw [Humana.normalize_plan_id, hsplit]
  show Except.ok (pre ++ mid ++ zfill suf 3) = Except.ok (pre ++ mid ++ suf)
  rw [zfill_of_three_digits suf hlen]

/-- Witness for C1 at concrete inputs. -/
theorem humana_plan_id_normalization_witness :
    (splitDashes (removeSpaces "H1234-56-789") = ["H1234", "56", "789"] ∧
     ("789" : String).length = 3 ∧
     (splitDashes (removeSpaces "H9999")).length ≠ 3) ∧
    (Humana.normalize_plan_id "H5216-318-1" = Except.ok "H5216318001" ∧
     Humana.normalize_plan_id "H1234-56-789" = Except.ok ("H1234" ++ "56" ++ "789") ∧
     Humana.normalize_plan_id "H9999" =
       Except.error ("Unexpected plan_id format: " ++ "H9999")) :=
  ⟨⟨by decide, by decide, by decide⟩,
   humana_plan_id_normalization "H1234-56-789" "H1234" "56" "789" (by decide) (by decide)
     "H9999" (by decide)⟩

/-! ### PDF content validator (`src/medicare/google_them/pdf_validator.py`) -/

namespace Validator

/-- Match of the `SOB_PATTERNS` regex list `["summary of benefits", r"\bSoB\b"]`
against the (already lower-cased) text. -/
def sobMatch (t : String) : Bool :=
  strContains t "summary of benefits" || wordMatch "SoB" t

/-- Match of the `EOC_PATTERNS` regex list `["evidence of coverage", r"\bEoC\b"]`. -/
def eocMatch (t : String) : Bool :=
  strContains t "evidence of coverage" || wordMatch "EoC" t

/-- Match of the `FORMULARY_PATTERNS` regex list `["formulary", "drug list", "part d"]`. -/
def formMatch (t : String) : Bool :=
  strContains t "formulary" || strContains t "drug list" || strContains t "part d"

/-- Result triple of `score_pdf`: `(label, confidence, reasons)`. -/
structure ScoreResult where
  detected : String
  score : Nat
  reasons : String
deriving DecidableEq

/-- Python `plan_id.replace("-", "").lower()` from `score_pdf`. -/
def pidPlain (plan_id : String) : String :=
  strToLower (removeDashes plan_id)

/-- Translation of `score_pdf` from `pdf_validator.py`.  The sequential
`score += ...` / `reasons.append(...)` accumulation is rendered as the sum
and concatenation of the per-signal contributions, in source order; the
final score is clamped at 100. -/
def score_pdf (text : String) (page_count : Nat)
    (plan_id plan_name company : String) : ScoreResult :=
  let t := strToLower text
  let sob := sobMatch t
  let eoc := eocMatch t
  let form := formMatch t
  let detected :=
    if form then "Drug_Formulary"
    else if eoc then "Evidence_of_Coverage"
    else if sob then "Summary_of_Benefits"
    else "Unknown"
  let docScore := (if sob then 20 else 0) + (if eoc then 20 else 0) + (if form then 20 else 0)
  let docReasons :=
    (if sob then ["SoB keyword"] else []) ++ (if eoc then ["EoC keyword"] else []) ++
      (if form then ["Formulary keyword"] else [])
  let pagePair : Nat × List String :=
    if detected = "Evidence_of_Coverage" ∧ 100 ≤ page_count then (10, ["EoC pagecount"])
    else if detected = "Summary_of_Benefits" ∧ page_count < 80 then (10, ["SoB short doc"])
    else if detected = "Drug_Formulary" ∧ 20 ≤ page_count ∧ page_count ≤ 400 then
      (10, ["Formulary plausible size"])
    else (0, [])
  let pidHit := strContains t (strToLower plan_id) || strContains t (pidPlain plan_id)
  let nameHit := plan_name != "" && strContains t (strToLower plan_name)
  let yearHit := strContains t "2025"
  let companyHit := company != "" && strContains t (strToLower company)
  let score := docScore + pagePair.1 + (if pidHit then 25 else 0) +
    (if nameHit then 25 else 0) + (if yearHit then 10 else 0) + (if companyHit then 10 else 0)
  let reasons := docReasons ++ pagePair.2 ++
    [if pidHit then "Plan ID match" else "Plan ID missing"] ++
    [if nameHit then "Plan name match" else "Plan name missing"] ++
    [if yearHit then "Year 2025 found" else "Year missing"] ++
    (if companyHit then ["Company match"] else [])
  ⟨detected, min score 100, String.intercalate "; " reasons⟩

end Validator

/-! ### UHC grabber categorizer (`src/medicare/uhc_pdf_grabber.py`) -/

namespace Uhc

/-- Translation of `categorize_pdf` from `uhc_pdf_grabber.py`. -/
def categorize_pdf (text : String) : String :=
  let txt := strToLower text
  if strContains txt "summary of benefits" then "Summary_of_Benefits"
  else if strContains txt "evidence of coverage" then "Evidence_of_Coverage"
  else if strContains txt "formulary" || strContains txt "drug list" then "Drug_Formulary"
  else "Other"

end Uhc

/-- C3 counterexample: the UHC grabber's categorizer does not recognize
"Part D" — it returns "Other", not the claimed Drug_Formulary label. -/
theorem carrier_categorization_counterexample :
    Uhc.categorize_pdf "Part D" = "Other" ∧
    Uhc.categorize_pdf "Part D" ≠ "Drug_Formulary" := by
  decide

/-- C3 amended: the UHC categorizer maps "Summary of Benefits",
"Evidence of Coverage", "Formulary" and "drug list" to the corresponding
labels but returns "Other" for "Part D"; the Google-pipeline validator's
pattern sets recognize all five phrases (with "Part D" detected as
Drug_Formulary); and "Provider Directory" alone matches none of the three
document labels in either categorizer. -/
theorem carrier_categorization_amended :
    Uhc.categorize_pdf "Summary of Benefits" = "Summary_of_Benefits" ∧
    Uhc.categorize_pdf "Evidence of Coverage" = "Evidence_of_Coverage" ∧
    Uhc.categorize_pdf "Formulary" = "Drug_Formulary" ∧
    Uhc.categorize_pdf "drug list" = "Drug_Formulary" ∧
    Uhc.categorize_pdf "Part D" = "Other" ∧
    Uhc.categorize_pdf "Provider Directory" = "Other" ∧
    (Validator.score_pdf "Summary of Benefits" 0 "x" "" "").detected = "Summary_of_Benefits" ∧
    (Validator.score_pdf "Evidence of Coverage" 0 "x" "" "").detected = "Evidence_of_Coverage" ∧
    (Validator.score_pdf "Formulary" 0 "x" "" "").detected = "Drug_Formulary" ∧
    (Validator.score_pdf "drug list" 0 "x" "" "").detected = "Drug_Formulary" ∧
    (Validator.score_pdf "Part D" 0 "x" "" "").detected = "Drug_Formulary" ∧
    (Validator.score_pdf "Provider Directory" 0 "x" "" "").detected = "Unknown" := by
  decide

/-- C4: with an Evidence-of-Coverage keyword (and no other document-type
keyword), 150 pages, and the plan ID, plan name, the literal "2025" and the
company name all present in the text, `score_pdf` returns confidence exactly
100 = 20 + 10 + 25 + 25 + 10 + 10; on the same text with only the plan-ID
match removed the confidence drops by exactly 25, to 75. -/
theorem validator_scoring_boundary
    (text1 text2 plan_id plan_name company : String)
    (heoc1 : Validator.eocMatch (strToLower text1) = true)
    (hsob1 : Validator.sobMatch (strToLower text1) = false)
    (hform1 : Validator.formMatch (strToLower text1) = false)
    (hpid1 : strContains (strToLower text1) (strToLower plan_id) = true)
    (hnameNE : (plan_name != "") = true)
    (hname1 : strContains (strToLower text1) (strToLower plan_name) = true)
    (hyear1 : strContains (strToLower text1) "2025" = true)
    (hcompNE : (company != "") = true)
    (hcomp1 : strContains (strToLower text1) (strToLower company) = true)
    (heoc2 : Validator.eocMatch (strToLower text2) = true)
    (hsob2 : Validator.sobMatch (strToLower text2) = false)
    (hform2 : Validator.formMatch (strToLower text2) = false)
    (hpid2a : strContains (strToLower text2) (strToLower plan_id) = false)
    (hpid2b : strContains (strToLower text2) (Validator.pidPlain plan_id) = false)
    (hname2 : strContains (strToLower text2) (strToLower plan_name) = true)
    (hyear2 : strContains (strToLower text2) "2025" = true)
    (hcomp2 : strContains (strToLower text2) (strToLower company) = true) :
    (Validator.score_pdf text1 150 plan_id plan_name company).score = 100 ∧
    (Validator.score_pdf text2 150 plan_id plan_name company).score = 75 := by
  constructor
  · simp [Validator.score_pdf, heoc1, hsob1, hform1, hpid1, hnameNE, hname1, hyear1,
      hcompNE, hcomp1]
  · simp [Validator.score_pdf, heoc2, hsob2, hform2, hpid2a, hpid2b, hnameNE, hname2,
      hyear2, hcompNE, hcomp2]

/-- Witness for C4 at concrete inputs. -/
theorem validator_scoring_boundary_witness :
    (Validator.score_pdf "Evidence of Coverage H1234-001-0 My Plan 2025 Acme"
       150 "H1234-001-0" "My Plan" "Acme").score = 100 ∧
    (Validator.score_pdf "Evidence of Coverage My Plan 2025 Acme"
       150 "H1234-001-0" "My Plan" "Acme").score = 75 :=
  validator_scoring_boundary
    "Evidence of Coverage H1234-001-0 My Plan 2025 Acme"
    "Evidence of Coverage My Plan 2025 Acme"
    "H1234-001-0" "My Plan" "Acme"
    (by decide) (by decide) (by decide) (by decide) (by decide) (by decide) (by decide)
    (by decide) (by decide) (by decide) (by decide) (by decide) (by decide) (by decide)
    (by decide) (by decide) (by decide)

/-- C9: when the extracted text matches several document-type pattern sets,
`score_pdf` adds 20 points per matching set (60 when all three match, before
the clamp), and the detected label is that of the last matching set in the
check order SoB, EoC, Formulary — in particular any formulary-pattern match
(including "part d") forces the Drug_Formulary label. -/
theorem validator_multi_match
    (textF : String) (page_count : Nat) (pidF pnameF compF : String)
    (hformF : Validator.formMatch (strToLower textF) = true)
    (text3 pid3 : String)
    (hsob3 : Validator.sobMatch (strToLower text3) = true)
    (heoc3 : Validator.eocMatch (strToLower text3) = true)
    (hform3 : Validator.formMatch (strToLower text3) = true)
    (hpid3a : strContains (strToLower text3) (strToLower pid3) = false)
    (hpid3b : strContains (strToLower text3) (Validator.pidPlain pid3) = false)
    (hyear3 : strContains (strToLower text3) "2025" = false)
    (text4 pid4 : String)
    (hsob4 : Validator.sobMatch (strToLower text4) = true)
    (heoc4 : Validator.eocMatch (strToLower text4) = true)
    (hform4 : Validator.formMatch (strToLower text4) = false)
    (hpid4a : strContains (strToLower text4) (strToLower pid4) = false)
    (hpid4b : strContains (strToLower text4) (Validator.pidPlain pid4) = false)
    (hyear4 : strContains (strToLower text4) "2025" = false) :
    (Validator.score_pdf textF page_count pidF pnameF compF).detected = "Drug_Formulary" ∧
    (Validator.score_pdf text3 0 pid3 "" "").score = 60 ∧
    (Validator.score_pdf text3 0 pid3 "" "").detected = "Drug_Formulary" ∧
    (Validator.score_pdf text4 0 pid4 "" "").score = 40 ∧
    (Validator.score_pdf text4 0 pid4 "" "").detected = "Evidence_of_Coverage" := by
  refine ⟨?_, ?_, ?_, ?_, ?_⟩
  · simp [Validator.score_pdf, hformF]
  · simp [Validator.score_pdf, hsob3, heoc3, hform3, hpid3a, hpid3b, hyear3]
  · simp [Validator.score_pdf, hform3]
  · simp [Validator.score_pdf, hsob4, heoc4, hform4, hpid4a, hpid4b, hyear4]
  · simp [Validator.score_pdf, hsob4, heoc4, hform4]

/-- Witness for C9 at concrete inputs. -/
theorem validator_multi_match_witness :
    (Validator.score_pdf "part d" 7 "p" "n" "c").detected = "Drug_Formulary" ∧
    (Validator.score_pdf "summary of benefits evidence of coverage formulary"
       0 "zzz" "" "").score = 60 ∧
    (Validator.score_pdf "summary of benefits evidence of coverage formulary"
       0 "zzz" "" "").detected = "Drug_Formulary" ∧
    (Validator.score_pdf "summary of benefits evidence of coverage"
       0 "zzz" "" "").score = 40 ∧
    (Validator.score_pdf "summary of benefits evidence of coverage"
       0 "zzz" "" "").detected = "Evidence_of_Coverage" :=
  validator_multi_match "part d" 7 "p" "n" "c" (by decide)
    "summary of benefits evidence of coverage formulary" "zzz"
    (by decide) (by decide) (by decide) (by decide) (by decide) (by decide)
    "summary of benefits evidence of coverage" "zzz"
    (by decide) (by decide) (by decide) (by decide) (by decide) (by decide)

/-! ### Luma bot registration ledger (`src/luma_bot/register_events.py`) -/

namespace LumaBot

/-- Contents of `registered_events.json`: `none` models an absent file, and a
present file holds the `"events"` list of URLs. -/
structure LedgerFile where
  contents : Option (List String)
deriving DecidableEq

/-- Translation of `load_registered_db`: `load_json(REGISTERED_DB,
default={"events": []})`. -/
def load_registered_db (f : LedgerFile) : List String :=
  f.contents.getD []

/-- Translation of `already_registered`: membership in the ledger's events list. -/
def already_registered (url : String) (f : LedgerFile) : Bool :=
  decide (url ∈ load_registered_db f)

/-- Translation of `mark_registered`: append the URL and save, unless it is
already present (in which case the file is left untouched). -/
def mark_registered (url : String) (f : LedgerFile) : LedgerFile :=
  let db := load_registered_db f
  if url ∈ db then f else ⟨some (db ++ [url])⟩

/-- Outcome of the page interactions that `handle_one_event` performs through
the browser, one flag per step of the flow. -/
structure PageEnv where
  isFree : Bool
  ctaFound : Bool
  formAppeared : Bool
  fillOk : Bool
deriving DecidableEq

/-- Result of `handle_one_event`: the ledger file after the call, the returned
`(success, message)` pair, and whether the registration-form flow
(`fill_form`) was invoked. -/
structure EventResult where
  file : LedgerFile
  success : Bool
  message : String
  formInvoked : Bool
deriving DecidableEq

/-- Translation of `handle_one_event`: short-circuit on an already-registered
URL, then check the page is free, open the CTA, wait for the form, fill it,
and only after a successful fill mark the URL registered.  The calendar step
is logged only and does not affect the ledger or the returned success. -/
def handle_one_event (env : PageEnv) (url : String) (f : LedgerFile) : EventResult :=
  if already_registered url f then
    ⟨f, true, "Already registered (skipped).", false⟩
  else if !env.isFree then
    ⟨f, false, "Non-free event", false⟩
  else if !env.ctaFound then
    ⟨f, false, "Register CTA not found", false⟩
  else if !env.formAppeared then
    ⟨f, false, "Form did not appear", false⟩
  else if !env.fillOk then
    ⟨f, false, "Form fill failed (likely unmapped required field)", true⟩
  else
    ⟨mark_registered url f, true, "Registered", true⟩

end LumaBot

/-- C2: registering the same event URL twice in sequence against the same
ledger is idempotent — when the first call registers the URL, the second call
short-circuits as already-registered without re-invoking the form flow,
leaves the ledger unchanged, and the ledger then holds exactly one entry for
that URL. -/
theorem luma_registration_idempotent
    (env1 env2 : LumaBot.PageEnv) (url : String) (f : LumaBot.LedgerFile)
    (hnew : LumaBot.already_registered url f = false)
    (hfree : env1.isFree = true) (hcta : env1.ctaFound = true)
    (hform : env1.formAppeared = true) (hfill : env1.fillOk = true) :
    (LumaBot.handle_one_event env1 url f).success = true ∧
    (LumaBot.handle_one_event env1 url f).message = "Registered" ∧
    LumaBot.handle_one_event env2 url (LumaBot.handle_one_event env1 url f).file =
      ⟨(LumaBot.handle_one_event env1 url f).file, true,
        "Already registered (skipped).", false⟩ ∧
    (LumaBot.load_registered_db
        (LumaBot.handle_one_event env2 url
          (LumaBot.handle_one_event env1 url f).file).file).count url = 1 := by
  have hmem : url ∉ LumaBot.load_registered_db f := by
    have := of_decide_eq_false hnew
    exact this
  have h1 : LumaBot.handle_one_event env1 url f =
      ⟨⟨some (LumaBot.load_registered_db f ++ [url])⟩, true, "Registered", true⟩ := by
    simp [LumaBot.handle_one_event, hnew, hfree, hcta, hform, hfill,
      LumaBot.mark_registered, hmem]
  have hreg2 : LumaBot.already_registered url
      (⟨some (LumaBot.load_registered_db f ++ [url])⟩ : LumaBot.LedgerFile) = true := by
    simp [LumaBot.already_registered, LumaBot.load_registered_db]
  refine ⟨by rw [h1], by rw [h1], ?_, ?_⟩
  · rw [h1]
    simp [LumaBot.handle_one_event, hreg2]
  · rw [h1]
    simp only [LumaBot.handle_one_event, hreg2, if_true]
    simp [LumaBot.load_registered_db, List.count_append,
      List.count_eq_zero.mpr hmem]
    exact List.count_eq_zero.mpr hmem

/-- Witness for C2 at concrete inputs. -/
theorem luma_registration_idempotent_witness :
    (LumaBot.already_registered "https://luma.com/abc" ⟨none⟩ = false ∧
     (⟨true, true, true, true⟩ : LumaBot.PageEnv).isFree = true) ∧
    ((LumaBot.handle_one_event ⟨true, true, true, true⟩ "https://luma.com/abc"
        ⟨none⟩).success = true ∧
     (LumaBot.handle_one_event ⟨true, true, true, true⟩ "https://luma.com/abc"
        ⟨none⟩).message = "Registered" ∧
     LumaBot.handle_one_event ⟨false, false, false, false⟩ "https://luma.com/abc"
        (LumaBot.handle_one_event ⟨true, true, true, true⟩ "https://luma.com/abc"
          ⟨none⟩).file =
       ⟨(LumaBot.handle_one_event ⟨true, true, true, true⟩ "https://luma.com/abc"
          ⟨none⟩).file, true, "Already registered (skipped).", false⟩ ∧
     (LumaBot.load_registered_db
        (LumaBot.handle_one_event ⟨false, false, false, false⟩ "https://luma.com/abc"
          (LumaBot.handle_one_event ⟨true, true, true, true⟩ "https://luma.com/abc"
            ⟨none⟩).file).file).count "https://luma.com/abc" = 1) :=
  ⟨⟨by decide, by decide⟩,
   luma_registration_idempotent ⟨true, true, true, true⟩ ⟨false, false, false, false⟩
     "https://luma.com/abc" ⟨none⟩ (by decide) rfl rfl rfl rfl⟩

/-! ### Luma bot free-event check (`src/luma_bot/register_events.py`) -/

namespace LumaBot

/-- View of an event page as `is_free_event_on_page` observes it through the
browser: the texts of the span/div/p elements it scans, the texts of the
parents of the register-style call-to-action elements, and whether any
element's text node contains a `'$'` (the final `//*[contains(text(), '$')]`
query). -/
structure EventPage where
  elementTexts : List String
  ctaParentTexts : List String
  hasDollarTextElem : Bool
deriving DecidableEq

/-- Translation of `is_free_event_on_page`: collect the stripped, non-empty
element texts containing "free" (case-insensitive); if any exist, the page is
free unless a `'$'` appears in a CTA parent's text; otherwise any `'$'` text
element means paid, and with neither signal the function falls through to
not-free. -/
def is_free_event_on_page (p : EventPage) : Bool :=
  let texts := (p.elementTexts.map strTrim).filter
    (fun t => t != "" && strContains (strToLower t) "free")
  if texts.any (fun t => strContains (strToLower t) "free") then
    let around := p.ctaParentTexts.map strTrim
    if around.any (fun t => strContains t "$") then false else true
  else
    if p.hasDollarTextElem then false else false

end LumaBot

/-- C5: a page with a visible "Free" text and no `$` near the register CTA is
classified free; a page with only a `$`-price and no "free" text is
classified not-free; a page with neither signal defaults to not-free. -/
theorem luma_free_event_detection
    (p1 p2 p3 : LumaBot.EventPage)
    (hfree1 : p1.elementTexts.any
      (fun t => strTrim t != "" && strContains (strToLower (strTrim t)) "free") = true)
    (hcta1 : p1.ctaParentTexts.all
      (fun t => !strContains (strTrim t) "$") = true)
    (hnofree2 : p2.elementTexts.all
      (fun t => !strContains (strToLower (strTrim t)) "free") = true)
    (hdollar2 : p2.hasDollarTextElem = true)
    (hnofree3 : p3.elementTexts.all
      (fun t => !strContains (strToLower (strTrim t)) "free") = true)
    (hdollar3 : p3.hasDollarTextElem = false) :
    LumaBot.is_free_event_on_page p1 = true ∧
    LumaBot.is_free_event_on_page p2 = false ∧
    LumaBot.is_free_event_on_page p3 = false := by
  have hfilterNil : ∀ p : LumaBot.EventPage,
      (p.elementTexts.all (fun t => !strContains (strToLower (strTrim t)) "free") = true) →
      (p.elementTexts.map strTrim).filter
        (fun t => t != "" && strContains (strToLower t) "free") = [] := by
    intro p hp
    rw [List.filter_eq_nil_iff]
    intro a ha
    rw [List.mem_map] at ha
    obtain ⟨x, hx, rfl⟩ := ha
    have := List.all_eq_true.mp hp x hx
    simp only [Bool.not_eq_eq_eq_not, Bool.not_true] at this
    simp [this]
  refine ⟨?_, ?_, ?_⟩
  · have hany : ((p1.elementTexts.map strTrim).filter
        (fun t => t != "" && strContains (strToLower t) "free")).any
        (fun t => strContains (strToLower t) "free") = true := by
      rw [List.any_eq_true]
      rw [List.any_eq_true] at hfree1
      obtain ⟨x, hx, hpx⟩ := hfree1
      refine ⟨strTrim x, List.mem_filter.mpr ⟨List.mem_map_of_mem _ hx, hpx⟩, ?_⟩
      exact (Bool.and_eq_true _ _ |>.mp hpx).2
    have hcta : ((p1.ctaParentTexts.map strTrim).any (fun t => strContains t "$")) = false := by
      rw [List.any_map, List.any_eq_false]
      intro x hx
      have := List.all_eq_true.mp hcta1 x hx
      simp only [Function.comp, Bool.not_eq_eq_eq_not, Bool.not_true] at this ⊢
      simp [this]
    simp [LumaBot.is_free_event_on_page, hany, hcta]
  · simp [LumaBot.is_free_event_on_page, hfilterNil p2 hnofree2]
  · simp [LumaBot.is_free_event_on_page, hfilterNil p3 hnofree3]

/-- Witness for C5 at concrete pages. -/
theorem luma_free_event_detection_witness :
    ((⟨["Free", "Great event"], ["Register"], false⟩ : LumaBot.EventPage).elementTexts.any
      (fun t => strTrim t != "" && strContains (strToLower (strTrim t)) "free") = true ∧
     (⟨["$49.00"], [], true⟩ : LumaBot.EventPage).elementTexts.all
      (fun t => !strContains (strToLower (strTrim t)) "free") = true) ∧
    (LumaBot.is_free_event_on_page ⟨["Free", "Great event"], ["Register"], false⟩ = true ∧
     LumaBot.is_free_event_on_page ⟨["$49.00"], [], true⟩ = false ∧
     LumaBot.is_free_event_on_page ⟨["Great event"], [], false⟩ = false) :=
  ⟨⟨by decide, by decide⟩,
   luma_free_event_detection ⟨["Free", "Great event"], ["Register"], false⟩
     ⟨["$49.00"], [], true⟩ ⟨["Great event"], [], false⟩
     (by decide) (by decide) (by decide) (by decide) (by decide) (by decide)⟩

/-! ### Luma bot form filler (`src/luma-bot/form_filler.py`) -/

namespace FormFiller

/-- Characters kept by the regex `re.sub(r"[^a-z0-9 ]", "", ...)` of `normalize`. -/
def isAllowedChar (c : Char) : Bool :=
  (97 ≤ c.toNat && c.toNat ≤ 122) || c.isDigit || c == ' '

/-- Translation of `normalize` from `form_filler.py`:
`re.sub(r"[^a-z0-9 ]", "", text.strip().lower())`. -/
def normalize (text : String) : String :=
  ⟨((trimChars text.data).map Char.toLower).filter isAllowedChar⟩

/-- The `FIELD_MAP` synonym table, in its source (insertion) order. -/
def FIELD_MAP : List (String × List String) :=
  [("full_name", ["name", "full name", "your name"]),
   ("first_name", ["first name", "given name"]),
   ("last_name", ["last name", "surname"]),
   ("email", ["email", "e-mail", "mail"]),
   ("phone", ["phone", "mobile", "telephone"]),
   ("company", ["company", "organization", "employer"]),
   ("job_title", ["job", "role", "title", "occupation"]),
   ("website", ["website", "url", "portfolio"]),
   ("city", ["city", "town"]),
   ("state", ["state", "province"])]

/-- Iteration of `map_field` over the synonym table: the first key one of
whose candidates occurs in the normalized label wins. -/
def mapFieldGo (norm : String) : List (String × List String) → Option String
  | [] => none
  | (key, cands) :: rest =>
    if cands.any (fun c => strContains norm c) then some key else mapFieldGo norm rest

/-- Translation of `map_field` from `form_filler.py`. -/
def map_field (label : String) : Option String :=
  mapFieldGo (normalize label) FIELD_MAP

/-- Attributes of one form input element as `fill_form` reads them;
`none` models a missing attribute. -/
structure FormField where
  ariaLabel : Option String
  placeholderAttr : Option String
  nameAttr : Option String
  idAttr : Option String
  requiredAttr : Option String
  tag : String
deriving DecidableEq

/-- Python truthiness of a `get_attribute` result: `None` and `""` are falsy. -/
def attrTruthy : Option String → Bool
  | none => false
  | some s => s != ""

/-- The `label_text` chain of `fill_form`: `aria-label or placeholder or name
or id or ""`. -/
def effectiveLabel (f : FormField) : String :=
  if attrTruthy f.ariaLabel then f.ariaLabel.getD ""
  else if attrTruthy f.placeholderAttr then f.placeholderAttr.getD ""
  else if attrTruthy f.nameAttr then f.nameAttr.getD ""
  else if attrTruthy f.idAttr then f.idAttr.getD ""
  else ""

/-- Translation of `fill_form` from `form_filler.py`: each field is mapped by
`map_field`; an unmapped field aborts the fill with `False` when required and
is skipped otherwise; a mapped field whose profile value is empty aborts with
`False`; when every field is handled the form is submitted and `True`
returned.  (The keystroke side effects have no bearing on the result.) -/
def fill_form (profile : List (String × String)) : List FormField → Bool
  | [] => true
  | f :: rest =>
    match map_field (effectiveLabel f) with
    | none =>
      if attrTruthy f.requiredAttr then false else fill_form profile rest
    | some key =>
      if (profile.lookup key).getD "" != "" then fill_form profile rest else false

end FormFiller

theorem fill_form_append (profile : List (String × String))
    (l1 l2 : List FormFiller.FormField) :
    FormFiller.fill_form profile (l1 ++ l2) =
      (FormFiller.fill_form profile l1 && FormFiller.fill_form profile l2) := by
  induction l1 with
  | nil => simp [FormFiller.fill_form]
  | cons f t ih =>
    simp only [List.cons_append, FormFiller.fill_form]
    cases FormFiller.map_field (FormFiller.effectiveLabel f) with
    | none =>
      cases hb : FormFiller.attrTruthy f.requiredAttr <;> simp [hb, ih]
    | some key =>
      cases hv : (profile.lookup key).getD "" != "" <;> simp [hv, ih]

theorem insideOf_dropWhile (p0 : Char) (pr l : List Char)
    (h0 : isSpaceChar p0 = false) (h : (p0 :: pr) <:+: l) :
    (p0 :: pr) <:+: l.dropWhile isSpaceChar := by
  induction l with
  | nil =>
    rw [List.infix_nil] at h
    exact absurd h (by simp)
  | cons c t ih =>
    rw [List.dropWhile_cons]
    by_cases hc : isSpaceChar c = true
    · rw [if_pos hc]
      rcases List.infix_cons_iff.mp h with hp | hi
      · obtain ⟨he, -⟩ := List.cons_prefix_cons.mp hp
        rw [← he, h0] at hc
        exact Bool.noConfusion hc
      · exact ih hi
    · rw [if_neg hc]
      exact h

theorem email_infix_trim (l : List Char) (h : "e-mail".data <:+: l) :
    "e-mail".data <:+: trimChars l := by
  have hcons : "e-mail".data = 'e' :: "-mail".data := rfl
  rw [hcons] at h
  have h1 : 'e' :: "-mail".data <:+: l.dropWhile isSpaceChar :=
    insideOf_dropWhile 'e' _ _ (by decide) h
  have h2 : ('e' :: "-mail".data).reverse <:+: (l.dropWhile isSpaceChar).reverse :=
    List.reverse_infix.mpr h1
  have hrev : ('e' :: "-mail".data).reverse = 'l' :: "iam-e".data := by decide
  rw [hrev] at h2
  have h3 : 'l' :: "iam-e".data <:+:
      ((l.dropWhile isSpaceChar).reverse).dropWhile isSpaceChar :=
    insideOf_dropWhile 'l' _ _ (by decide) h2
  have h4 : ('l' :: "iam-e".data).reverse <:+:
      (((l.dropWhile isSpaceChar).reverse).dropWhile isSpaceChar).reverse :=
    List.reverse_infix.mpr h3
  have hback : ('l' :: "iam-e".data).reverse = "e-mail".data := by decide
  rw [hback] at h4
  rw [hcons]
  exact h4

/-- C6 counterexample: a field whose effective label is "name e-mail" does
contain "e-mail", yet `map_field` returns `full_name` (the synonym table is
scanned in order and the full_name synonym "name" matches first), not
`email` — refuting the claim that any label containing "e-mail" maps to the
email profile key. -/
theorem form_field_mapping_counterexample :
    FormFiller.effectiveLabel ⟨some "name e-mail", none, none, none, none, "input"⟩ =
      "name e-mail" ∧
    strContains "name e-mail" "e-mail" = true ∧
    FormFiller.map_field "name e-mail" = some "full_name" ∧
    FormFiller.map_field "name e-mail" ≠ some "email" := by
  decide

/-- C6 amended: a label containing "e-mail" maps to the email profile key
provided its normalized form does not also contain "name" (the synonym of the
earlier-priority name keys); "Your Name" maps to full_name; a required field
with no matching synonym makes the whole form fill report failure; and a
non-required unmapped field is skipped without affecting the result. -/
theorem form_field_mapping_amended
    (label : String)
    (hmail : strContains label "e-mail" = true)
    (hnoname : strContains (FormFiller.normalize label) "name" = false)
    (profile : List (String × String)) (pre post : List FormFiller.FormField)
    (f g : FormFiller.FormField)
    (hfu : FormFiller.map_field (FormFiller.effectiveLabel f) = none)
    (hfr : FormFiller.attrTruthy f.requiredAttr = true)
    (hgu : FormFiller.map_field (FormFiller.effectiveLabel g) = none)
    (hgr : FormFiller.attrTruthy g.requiredAttr = false) :
    FormFiller.map_field label = some "email" ∧
    FormFiller.map_field "Your Name" = some "full_name" ∧
    FormFiller.fill_form profile (pre ++ f :: post) = false ∧
    FormFiller.fill_form profile (pre ++ g :: post) =
      FormFiller.fill_form profile (pre ++ post) := by
  refine ⟨?_, by decide, ?_, ?_⟩
  · have hemail : strContains (FormFiller.normalize label) "email" = true := by
      have h0 : "e-mail".data <:+: label.data := (charsInsideOf_iff _ _).mp hmail
      have h1 : "e-mail".data <:+: trimChars label.data := email_infix_trim _ h0
      have h2 : "e-mail".data.map Char.toLower <:+:
          (trimChars label.data).map Char.toLower := h1.map _
      rw [show "e-mail".data.map Char.toLower = "e-mail".data from by decide] at h2
      have h3 : "e-mail".data.filter FormFiller.isAllowedChar <:+:
          ((trimChars label.data).map Char.toLower).filter FormFiller.isAllowedChar :=
        h2.filter _
      rw [show "e-mail".data.filter FormFiller.isAllowedChar = "email".data
        from by decide] at h3
      exact (charsInsideOf_iff _ _).mpr h3
    have hblock : ∀ cand : String, charsInsideOf "name".data cand.data = true →
        strContains (FormFiller.normalize label) cand = false := by
      intro cand hc
      exact charsInsideOf_false_of_sub hc hnoname
    have hb1 := hblock "name" (by decide)
    have hb2 := hblock "full name" (by decide)
    have hb3 := hblock "your name" (by decide)
    have hb4 := hblock "first name" (by decide)
    have hb5 := hblock "given name" (by decide)
    have hb6 := hblock "last name" (by decide)
    have hb7 := hblock "surname" (by decide)
    rw [FormFiller.map_field]
    simp only [FormFiller.FIELD_MAP, FormFiller.mapFieldGo, List.any_cons, List.any_nil,
      hb1, hb2, hb3, hb4, hb5, hb6, hb7, hemail, Bool.false_or, Bool.or_false,
      Bool.true_or, if_false, if_true, Bool.or_self]
    decide
  · rw [fill_form_append]
    have hf : FormFiller.fill_form profile (f :: post) = false := by
      rw [FormFiller.fill_form, hfu]
      simp [hfr]
    rw [hf, Bool.and_false]
  · rw [fill_form_append, fill_form_append]
    have hg : FormFiller.fill_form profile (g :: post) =
        FormFiller.fill_form profile post := by
      rw [FormFiller.fill_form, hgu]
      simp [hgr]
    rw [hg]

/-- Witness for the amended C6 at concrete inputs. -/
theorem form_field_mapping_amended_witness :
    (strContains "e-mail address" "e-mail" = true ∧
     strContains (FormFiller.normalize "e-mail address") "name" = false ∧
     FormFiller.map_field (FormFiller.effectiveLabel
       ⟨none, some "Dietary restrictions", none, none, some "true", "input"⟩) = none ∧
     FormFiller.map_field (FormFiller.effectiveLabel
       ⟨none, some "Dietary notes", none, none, none, "input"⟩) = none) ∧
    (FormFiller.map_field "e-mail address" = some "email" ∧
     FormFiller.map_field "Your Name" = some "full_name" ∧
     FormFiller.fill_form [("email", "a@b.c")]
       ([] ++ ⟨none, some "Dietary restrictions", none, none, some "true", "input"⟩ :: []) =
       false ∧
     FormFiller.fill_form [("email", "a@b.c")]
       ([] ++ ⟨none, some "Dietary notes", none, none, none, "input"⟩ :: []) =
       FormFiller.fill_form [("email", "a@b.c")] ([] ++ [])) :=
  ⟨⟨by decide, by decide, by decide, by decide⟩,
   form_field_mapping_amended "e-mail address" (by decide) (by decide)
     [("email", "a@b.c")] [] []
     ⟨none, some "Dietary restrictions", none, none, some "true", "input"⟩
     ⟨none, some "Dietary notes", none, none, none, "input"⟩
     (by decide) (by decide) (by decide) (by decide)⟩

/-! ### Browser-session utility (`src/utils/driver_session.py`) -/

namespace DriverSession

/-- The persistence-related environment variables read at module import:
`FIREFOX_PROFILE_PERSIST == "1"`, `FIREFOX_PROFILE_DIR`,
`FIREFOX_PROFILE_NAME`, and `FIREFOX_PROFILE_BASE_DIR` (default
`.selenium-profiles`).  An unset or empty variable is `none`. -/
structure Env where
  envPersist : Bool
  envProfileDir : Option String
  envProfileName : Option String
  envProfileBase : String
deriving DecidableEq

/-- Result triple of `_resolve_profile`:
`(profile_path, is_persistent, is_temporary)`. -/
structure Resolved where
  profilePath : String
  isPersistent : Bool
  isTemporary : Bool
deriving DecidableEq

/-- Last path component, as `pathlib.Path(...).name` is used on the chosen
directory. -/
def baseName (p : String) : String :=
  (splitOnChar '/' p.data).map String.mk |>.getLastD p

/-- Translation of `_resolve_profile`: an explicit directory argument, then
the directory environment variable, then a (argument or environment) profile
name under the base directory — all persistent — and otherwise a fresh
`tempfile.mkdtemp(prefix="ff-profile-")` directory, not persistent.
`persist_profile = some true` forces persistence; `some false` is ignored for
named/explicit directories (the code's deliberate guard against deleting user
directories) and is a no-op on the temp path, which is already
non-persistent.  `FIREFOX_PROFILE_PERSIST=1` flips any choice to persistent.
The fresh mkdtemp result is passed in as `tmpDir`. -/
def _resolve_profile (env : Env) (persist_profile : Option Bool)
    (profile_name : Option String) (profile_dir : Option String)
    (tmpDir : String) : Resolved :=
  let pick : String × Bool :=
    match profile_dir with
    | some d => (d, true)
    | none =>
      match env.envProfileDir with
      | some d => (d, true)
      | none =>
        match profile_name <|> env.envProfileName with
        | some name => (env.envProfileBase ++ "/" ++ name, true)
        | none => (tmpDir, false)
  let isPersistent :=
    match persist_profile with
    | some true => true
    | _ => pick.2
  let isPersistent := if env.envPersist then true else isPersistent
  ⟨pick.1, isPersistent, !isPersistent && strStartsWith (baseName pick.1) "ff-profile-"⟩

/-- Whether the chosen profile directory still exists after `start_driver`'s
scoped exit: the directory is created unconditionally (`mkdir`), and the
`finally` block removes it exactly when it is a non-persistent temporary —
independently of whether the body exited normally or by exception, which is
why the `exitedWithException` flag does not occur on the right-hand side. -/
def profileDirExistsAfterExit (r : Resolved) (exitedWithException : Bool) : Bool :=
  !(!r.isPersistent && r.isTemporary)

end DriverSession

/-- C7: with no persistence arguments and no persistence-related environment
variables, the session uses a directory named by the `ff-profile-` temporary
pattern and that directory is gone after the scoped exit (exception or not);
with an explicit profile name the chosen directory is persistent and still
exists after the scoped exit. -/
theorem driver_profile_lifecycle
    (base tmp : String) (exc1 : Bool)
    (htmp : strStartsWith (DriverSession.baseName tmp) "ff-profile-" = true)
    (env2 : DriverSession.Env) (persist2 : Option Bool) (dir2 : Option String)
    (name2 tmp2 : String) (exc2 : Bool) :
    (DriverSession._resolve_profile ⟨false, none, none, base⟩ none none none tmp).profilePath
      = tmp ∧
    strStartsWith (DriverSession.baseName
      (DriverSession._resolve_profile ⟨false, none, none, base⟩ none none none
        tmp).profilePath) "ff-profile-" = true ∧
    DriverSession.profileDirExistsAfterExit
      (DriverSession._resolve_profile ⟨false, none, none, base⟩ none none none tmp) exc1
      = false ∧
    DriverSession.profileDirExistsAfterExit
      (DriverSession._resolve_profile env2 persist2 (some name2) dir2 tmp2) exc2
      = true := by
  refine ⟨rfl, htmp, ?_, ?_⟩
  · simp [DriverSession._resolve_profile, DriverSession.profileDirExistsAfterExit, htmp]
  · rcases env2 with ⟨ep, ed, en, eb⟩
    rcases dir2 with _ | d <;> rcases ed with _ | d2 <;>
      rcases persist2 with _ | b <;> cases ep <;>
      simp [DriverSession._resolve_profile, DriverSession.profileDirExistsAfterExit,
        Option.orElse] <;>
      cases b <;> simp

/-- Witness for C7 at concrete inputs. -/
theorem driver_profile_lifecycle_witness :
    strStartsWith (DriverSession.baseName "/tmp/ff-profile-x1") "ff-profile-" = true ∧
    ((DriverSession._resolve_profile ⟨false, none, none, ".selenium-profiles"⟩
        none none none "/tmp/ff-profile-x1").profilePath = "/tmp/ff-profile-x1" ∧
     strStartsWith (DriverSession.baseName
       (DriverSession._resolve_profile ⟨false, none, none, ".selenium-profiles"⟩
         none none none "/tmp/ff-profile-x1").profilePath) "ff-profile-" = true ∧
     DriverSession.profileDirExistsAfterExit
       (DriverSession._resolve_profile ⟨false, none, none, ".selenium-profiles"⟩
         none none none "/tmp/ff-profile-x1") true = false ∧
     DriverSession.profileDirExistsAfterExit
       (DriverSession._resolve_profile ⟨false, none, some "other", ".selenium-profiles"⟩
         (some true) (some "luma_bot") none "/tmp/ff-profile-x2") false = true) :=
  ⟨by decide,
   driver_profile_lifecycle ".selenium-profiles" "/tmp/ff-profile-x1" true (by decide)
     ⟨false, none, some "other", ".selenium-profiles"⟩ (some true) none
     "luma_bot" "/tmp/ff-profile-x2" false⟩

/-! ### Carrier grabber range processing (`aetna_pdf_grabber.py` /
`humana_pdf_direct.py`, `main`) -/

namespace Grabber

/-- The 1-based positions of the rows processed by `main(start_n, stop_n)` in
the Aetna and Humana grabbers: an empty plan list returns early; `start_n` is
clamped up to 1 and `stop_n` (absent or past the end) down to the list
length; an inverted range is an error producing no work; otherwise the loop
runs `range(start_n - 1, stop_n)`, i.e. positions `start_n .. stop_n`
inclusive. -/
def processPositions (total : Nat) (startN : Int) (stopN : Option Int) : List Int :=
  if total = 0 then []
  else
    let s := if startN < 1 then 1 else startN
    let e :=
      match stopN with
      | none => (total : Int)
      | some v => if v > (total : Int) then (total : Int) else v
    if s > e then []
    else (List.range (e + 1 - s).toNat).map (fun k => s + (k : Int))

end Grabber

/-- C8: with `--start-n 5 --stop-n 7` a grabber processes exactly the rows at
1-based positions 5, 6 and 7, for every input of length at least 7; with the
defaults (start 1, stop absent) every position of the list is processed. -/
theorem grabber_range_processing (total total2 : Nat) (h7 : 7 ≤ total) :
    Grabber.processPositions total 5 (some 7) = [5, 6, 7] ∧
    Grabber.processPositions total2 1 none =
      (List.range total2).map (fun k => 1 + (k : Int)) := by
  constructor
  · have h0 : ¬(total = 0) := by omega
    have hgt : ¬((7 : Int) > (total : Int)) := by
      have : (7 : Int) ≤ (total : Int) := by exact_mod_cast h7
      omega
    rw [Grabber.processPositions, if_neg h0]
    simp only [if_neg hgt]
    norm_num
    decide
  · rcases Nat.eq_zero_or_pos total2 with h0 | hpos
    · subst h0
      rw [Grabber.processPositions]
      simp
    · have h0 : ¬(total2 = 0) := by omega
      rw [Grabber.processPositions, if_neg h0]
      have hlt : ¬((1 : Int) < 1) := by omega
      have hgt : ¬((1 : Int) > (total2 : Int)) := by
        have : (1 : Int) ≤ (total2 : Int) := by exact_mod_cast hpos
        omega
      simp only [if_neg hlt, if_neg hgt]
      have harith : ((total2 : Int) + 1 - 1).toNat = total2 := by omega
      rw [harith]

/-- Witness for C8 at concrete inputs. -/
theorem grabber_range_processing_witness :
    7 ≤ 9 ∧
    (Grabber.processPositions 9 5 (some 7) = [5, 6, 7] ∧
     Grabber.processPositions 4 1 none =
       (List.range 4).map (fun k => 1 + (k : Int))) :=
  ⟨by decide, grabber_range_processing 9 4 (by decide)⟩

/-! ### Stage-2 filter and download (`src/medicare/google_them/filter_and_download.py`) -/

namespace FilterDownload

/-- Characters allowed in a URL scheme by `urllib.parse` (letter first, then
letters, digits, `+`, `-`, `.`). -/
def isSchemeChar (c : Char) : Bool :=
  c.isAlphanum || c == '+' || c == '-' || c == '.'

/-- Removal of a leading `scheme:` from a URL, as `urlparse` does before
looking for the authority. -/
def dropScheme (u : String) : String :=
  let pre := u.data.takeWhile (fun c => !(c == ':'))
  if pre.length < u.data.length && !pre.isEmpty &&
      (pre.headD ' ').isAlpha && pre.all isSchemeChar then
    ⟨u.data.drop (pre.length + 1)⟩
  else u

/-- The authority (`netloc`) component as `urlparse(url).netloc` extracts it:
present only after a leading `"//"`, up to the next `/`, `?` or `#`. -/
def netloc (url : String) : String :=
  let r := dropScheme url
  if strStartsWith r "//" then
    ⟨(r.data.drop 2).takeWhile (fun c => !(c == '/') && !(c == '?') && !(c == '#'))⟩
  else ""

/-- Translation of `normalize_plan_id` from `filter_and_download.py`: same
splitting as the Humana grabber, but a malformed ID yields `""` instead of
raising ("don't hard-fail in Stage 2"). -/
def normalize_plan_id (plan_id : String) : String :=
  match splitDashes (removeSpaces plan_id) with
  | [pre, mid, suf] => pre ++ mid ++ zfill suf 3
  | _ => ""

/-- Translation of `host_matches`: no configured hosts means no restriction;
otherwise some allowed entry must occur in the lower-cased URL host. -/
def host_matches (url : String) (allowed_hosts : List String) : Bool :=
  if allowed_hosts.isEmpty then true
  else allowed_hosts.any (fun a => strContains (strToLower (netloc url)) a)

/-- Translation of `score_candidate`: +5 for a whitelisted (or unrestricted)
host, +3 when the raw plan ID occurs in the lower-cased URL, +2 when the
normalized plan ID is non-empty and occurs in it. -/
def score_candidate (url plan_id_raw plan_id_norm : String)
    (allowed_hosts : List String) : Nat :=
  let s1 := if host_matches url allowed_hosts then 5 else 0
  let u := strToLower url
  let s2 := if strContains u (strToLower plan_id_raw) then 3 else 0
  let s3 := if plan_id_norm != "" && strContains u (strToLower plan_id_norm) then 2 else 0
  s1 + s2 + s3

end FilterDownload

theorem fd_normalize_err (pid : String)
    (h : (splitDashes (removeSpaces pid)).length ≠ 3) :
    FilterDownload.normalize_plan_id pid = "" := by
  rw [FilterDownload.normalize_plan_id]
  cases hsp : splitDashes (removeSpaces pid) with
  | nil => rfl
  | cons a t =>
    cases t with
    | nil => rfl
    | cons b t2 =>
      cases t2 with
      | nil => rfl
      | cons c t3 =>
        cases t3 with
        | nil => exact absurd (by rw [hsp]; rfl) h
        | cons d t4 => rfl

/-- C10: for a plan ID that does not split into exactly three
hyphen-separated parts, Stage 2's `normalize_plan_id` returns `""` instead of
raising (unlike the Humana grabber's normalizer, which errors on the same
input), and `score_candidate` therefore never awards the +2 normalized-ID
bonus for such a plan while its +5 domain and +3 raw-ID components are scored
as usual. -/
theorem stage2_malformed_plan_id_tolerance
    (pid url raw : String) (hosts : List String)
    (hbad : (splitDashes (removeSpaces pid)).length ≠ 3) :
    FilterDownload.normalize_plan_id pid = "" ∧
    Humana.normalize_plan_id pid =
      Except.error ("Unexpected plan_id format: " ++ pid) ∧
    FilterDownload.score_candidate url raw (FilterDownload.normalize_plan_id pid) hosts =
      (if FilterDownload.host_matches url hosts then 5 else 0) +
      (if strContains (strToLower url) (strToLower raw) then 3 else 0) := by
  have hnil := fd_normalize_err pid hbad
  refine ⟨hnil, humana_normalize_err pid hbad, ?_⟩
  rw [hnil]
  simp [FilterDownload.score_candidate]

/-- Witness for C10 at concrete inputs. -/
theorem stage2_malformed_plan_id_tolerance_witness :
    (splitDashes (removeSpaces "H1234")).length ≠ 3 ∧
    (FilterDownload.normalize_plan_id "H1234" = "" ∧
     Humana.normalize_plan_id "H1234" =
       Except.error ("Unexpected plan_id format: " ++ "H1234") ∧
     FilterDownload.score_candidate "https://example.com/h1234.pdf" "H1234"
         (FilterDownload.normalize_plan_id "H1234") [] =
       (if FilterDownload.host_matches "https://example.com/h1234.pdf" [] then 5 else 0) +
       (if strContains (strToLower "https://example.com/h1234.pdf")
           (strToLower "H1234") then 3 else 0)) :=
  ⟨by decide,
   stage2_malformed_plan_id_tolerance "H1234" "https://example.com/h1234.pdf" "H1234" []
     (by decide)⟩
